import Mathlib

/-!
Shallow embedding of the HealthMonitor diet tracker (`src/main.py`)

The program is a single-file PyQt5 application.  We embed the pure logic of
its persistence helpers (`DataManager`, `ConfigManager`) and of the handler
methods (`LoginWindow.validate_login`, `RecordDialog.handle_accept`,
`MainWindow.add_record` / `edit_record_by_index` / `delete_record_by_index`,
`update_calorie_summary`, `update_highlights`, `refresh_recent_records`,
`update_body_card`, `save_settings`, `handle_password_change`).

Modelling conventions:
* Python strings are Lean `String`s.  `str.strip()` is modelled by `pyStrip`
  (stripping ASCII whitespace), `str.isdigit()` by `pyIsDigit` over ASCII
  digits, and `int(s)` on an all-digit string by `pyInt`.
* Python ints are `Int` (they are unbounded, no wrap-around).
* The float BMI computation `weight / ((height / 100) ** 2)` is modelled
  exactly over `ℚ`; on the integer spin-box grid the float and rational
  classifications agree.
* The JSON backing file `data.json` is modelled by `FileState`: absent,
  syntactically malformed (``json.loads`` raises ``JSONDecodeError``),
  or well-formed holding a decoded list of records.  `json.dumps` followed
  by `json.loads` is the identity on record lists, which `save_records`
  producing a `wellFormed` state encodes.
* `QDate.fromString(s, "yyyy-MM-dd")` is modelled by `parseDate`, which
  accepts exactly the strict `YYYY-MM-DD` strings denoting a valid
  proleptic-Gregorian calendar date and returns its Julian day number, so
  that `QDate` ordering, equality and `addDays` become integer operations.
-/

namespace HealthMonitor

/-- ASCII whitespace, the model of what Python's `str.strip()` removes. -/
def isPySpace (c : Char) : Bool :=
  c = ' ' || c = '\t' || c = '\n' || c = '\r' || c = '\x0b' || c = '\x0c'

/-- Model of Python `str.strip()`: drop whitespace from both ends. -/
def pyStrip (s : String) : String :=
  ⟨((s.data.dropWhile isPySpace).reverse.dropWhile isPySpace).reverse⟩

/-- Model of Python `str.isdigit()` (ASCII digits): non-empty and all digits. -/
def pyIsDigit (s : String) : Bool :=
  !s.data.isEmpty && s.data.all Char.isDigit

/-- Model of Python `int(s)` on an all-digit string. -/
def pyInt (s : String) : Int :=
  (s.data.foldl (fun n c => 10 * n + (c.toNat - 48)) 0 : Nat)

/-- A diet record, the shape of the dicts stored in `data.json`
(`RecordDialog.handle_accept` builds them with these five keys). -/
structure DietRecord where
  date : String
  meal : String
  food : String
  calories : Int
  note : String
deriving DecidableEq, Repr

/-- The credential profile persisted in `config.json`
(`ConfigManager` only ever keeps these four keys). -/
structure Credentials where
  username : String
  password : String
  height : Int
  weight : Int
deriving DecidableEq, Repr

/-- State of the `data.json` backing file: absent, present but not valid
JSON (`json.loads` raises), or valid JSON holding a record list. -/
inductive FileState where
  | absent : FileState
  | malformed (raw : String) : FileState
  | wellFormed (records : List DietRecord) : FileState
deriving DecidableEq, Repr

/-- `DataManager.load_records`: missing file → `[]`, `JSONDecodeError` → `[]`,
otherwise the decoded list. -/
def load_records : FileState → List DietRecord
  | .absent => []
  | .malformed _ => []
  | .wellFormed rs => rs

/-- `DataManager.save_records`: writes the JSON serialization of `rs`;
re-reading it decodes back to `rs`. -/
def save_records (rs : List DietRecord) : FileState :=
  .wellFormed rs

/-! ## `LoginWindow.validate_login` -/

/-- Outcome of a login attempt: the two alert dialogs, or acceptance with
the authenticated display name. -/
inductive LoginResult where
  | badUsername : LoginResult
  | badPassword : LoginResult
  | success (user : String) : LoginResult
deriving DecidableEq, Repr

/-- `LoginWindow.validate_login`: the entered username is `.strip()`ped, the
password is compared verbatim; on success `authenticated_user` is the
stripped username, or `"健康达人"` if that is empty. -/
def validate_login (c : Credentials) (enteredUser enteredPass : String) :
    LoginResult :=
  let username := pyStrip enteredUser
  if username ≠ c.username then .badUsername
  else if enteredPass ≠ c.password then .badPassword
  else .success (if username = "" then "健康达人" else username)

/-! ## `MainWindow.handle_password_change` -/

/-- The alert shown by `handle_password_change`, one per early return,
plus the success dialog. -/
inductive PasswordChangeMsg where
  | oldWrong : PasswordChangeMsg
  | tooShort : PasswordChangeMsg
  | sameAsOld : PasswordChangeMsg
  | mismatch : PasswordChangeMsg
  | success : PasswordChangeMsg
deriving DecidableEq, Repr

/-- `MainWindow.handle_password_change`: the four guards in source order;
only when all pass is `credentials["password"]` set (and persisted via
`ConfigManager.save_credentials`). -/
def handle_password_change (c : Credentials) (old new confirm : String) :
    Credentials × PasswordChangeMsg :=
  let stored := c.password
  if old ≠ stored then (c, .oldWrong)
  else if new.length < 6 then (c, .tooShort)
  else if new = stored then (c, .sameAsOld)
  else if new ≠ confirm then (c, .mismatch)
  else ({ c with password := new }, .success)

/-! ## `RecordDialog.handle_accept` and the store mutations -/

/-- The raw form contents of a `RecordDialog`: the date widget already
formats its value as `yyyy-MM-dd`, the meal combo box supplies its
current text. -/
structure RecordForm where
  dateText : String
  mealText : String
  foodText : String
  calorieText : String
  noteText : String
deriving DecidableEq, Repr

/-- The alert shown when `RecordDialog.handle_accept` rejects the form. -/
inductive RecordFormError where
  | missingFood : RecordFormError
  | badCalories : RecordFormError
deriving DecidableEq, Repr

/-- `RecordDialog.handle_accept`: reject empty (stripped) food, reject a
calorie text that is not all digits, otherwise build `result_data`. -/
def handle_accept (f : RecordForm) : Except RecordFormError DietRecord :=
  let food := pyStrip f.foodText
  let calorieText := pyStrip f.calorieText
  if food = "" then .error .missingFood
  else if ¬ pyIsDigit calorieText then .error .badCalories
  else .ok
    { date := f.dateText
      meal := f.mealText
      food := food
      calories := pyInt calorieText
      note := pyStrip f.noteText }

/-- The part of `MainWindow` state that the record operations touch:
the in-memory list and the persisted file. -/
structure AppState where
  records : List DietRecord
  file : FileState
deriving DecidableEq, Repr

/-- `MainWindow.add_record`: if the dialog was accepted (it only accepts with
`result_data` set), append and save; otherwise nothing happens. -/
def add_record (s : AppState) (f : RecordForm) : AppState :=
  match handle_accept f with
  | .error _ => s
  | .ok r => { records := s.records ++ [r], file := save_records (s.records ++ [r]) }

/-- `MainWindow.edit_record_by_index`: out-of-range index is ignored;
an accepted dialog replaces the record and saves. -/
def edit_record_by_index (s : AppState) (i : Nat) (f : RecordForm) : AppState :=
  if i < s.records.length then
    match handle_accept f with
    | .error _ => s
    | .ok r => { records := s.records.set i r, file := save_records (s.records.set i r) }
  else s

/-- `MainWindow.delete_record_by_index`: out-of-range index is ignored;
on a confirmed dialog the record is popped and the list saved. -/
def delete_record_by_index (s : AppState) (i : Nat) (confirmed : Bool) : AppState :=
  if i < s.records.length then
    if confirmed then
      { records := s.records.eraseIdx i, file := save_records (s.records.eraseIdx i) }
    else s
  else s

/-- One user-level store operation, with the data its dialog produced. -/
inductive StoreOp where
  | append (f : RecordForm) : StoreOp
  | replaceAt (i : Nat) (f : RecordForm) : StoreOp
  | removeAt (i : Nat) (confirmed : Bool) : StoreOp
deriving DecidableEq, Repr

/-- Run one store operation. -/
def apply_op (s : AppState) : StoreOp → AppState
  | .append f => add_record s f
  | .replaceAt i f => edit_record_by_index s i f
  | .removeAt i confirmed => delete_record_by_index s i confirmed

/-- Run a sequence of store operations. -/
def apply_ops (s : AppState) (ops : List StoreOp) : AppState :=
  ops.foldl apply_op s

/-! ## `MainWindow.update_calorie_summary` -/

/-- `sum(record.get("calories", 0) for record in self.records
if record.get("date") == today)`. -/
def today_total (records : List DietRecord) (today : String) : Int :=
  ((records.filter (fun r => r.date = today)).map (fun r => r.calories)).sum

/-- What the delta label under the progress bar reports. -/
inductive CalorieDelta where
  | remainingKcal (n : Int) : CalorieDelta
  | exceededKcal (n : Int) : CalorieDelta
deriving DecidableEq, Repr

/-- The delta branch of `update_calorie_summary`: `remaining = target - total`;
`remaining > 0` shows「距离目标还剩 remaining kcal」, otherwise
「已超出 abs(remaining) kcal」. -/
def calorie_delta (target total : Int) : CalorieDelta :=
  let remaining := target - total
  if remaining > 0 then .remainingKcal remaining
  else .exceededKcal |remaining|

/-! ## Dates and `MainWindow.update_highlights`

`QDate.fromString(s, "yyyy-MM-dd")` accepts exactly the strict ten-character
`YYYY-MM-DD` strings that denote a valid calendar date (year ≥ 1 — `QDate`
has no year zero — month in 1..12, day within the month, Gregorian leap
rule).  `QDate` values order by their Julian day number and
`addDays` adds to it, so we parse straight to the Julian day number. -/

/-- Gregorian leap year. -/
def isLeapYear (y : Nat) : Bool :=
  (y % 4 = 0 && y % 100 ≠ 0) || y % 400 = 0

/-- Number of days of month `m` in year `y`. -/
def daysInMonth (y m : Nat) : Nat :=
  if m = 2 then (if isLeapYear y then 29 else 28)
  else if m = 4 || m = 6 || m = 9 || m = 11 then 30
  else 31

/-- Julian day number of the Gregorian date `y-m-d` (valid for `y ≥ 1`). -/
def toJDN (y m d : Nat) : Nat :=
  let a := (14 - m) / 12
  let y' := y + 4800 - a
  let m' := m + 12 * a - 3
  d + (153 * m' + 2) / 5 + 365 * y' + y' / 4 - y' / 100 + y' / 400 - 32045

/-- Digit value of a character. -/
def digitVal (c : Char) : Nat := c.toNat - 48

/-- Model of `QDate.fromString(s, "yyyy-MM-dd")`, returned as the Julian day
number of the parsed date; `none` exactly when `isValid()` would be false. -/
def parseDate (s : String) : Option Int :=
  match s.data with
  | [y1, y2, y3, y4, h1, m1, m2, h2, d1, d2] =>
    if (y1.isDigit && y2.isDigit && y3.isDigit && y4.isDigit &&
        h1 = '-' && m1.isDigit && m2.isDigit && h2 = '-' &&
        d1.isDigit && d2.isDigit) then
      let y := 1000 * digitVal y1 + 100 * digitVal y2 + 10 * digitVal y3 + digitVal y4
      let m := 10 * digitVal m1 + digitVal m2
      let d := 10 * digitVal d1 + digitVal d2
      if 1 ≤ y && 1 ≤ m && m ≤ 12 && 1 ≤ d && d ≤ daysInMonth y m then
        some (toJDN y m d : Int)
      else none
    else none
  | _ => none

/-- Loop body of `MainWindow.update_highlights`: skip a record whose date
does not parse (`date_obj.isValid()` false ⇒ `continue`), add an in-window
date to `week_days` (the window `week_start <= date_obj <= today` with
`week_start = today.addDays(-6)` is `[today - 6, today]` on Julian day
numbers, and the set of canonical date strings collected by the code is in
bijection with the set of day numbers), and bump `today_meals` on a record
dated exactly `today`. -/
def highlight_step (today : Int) (acc : Finset Int × Nat) (r : DietRecord) :
    Finset Int × Nat :=
  match parseDate r.date with
  | none => acc
  | some d =>
    (if today - 6 ≤ d ∧ d ≤ today then insert d acc.1 else acc.1,
     if d = today then acc.2 + 1 else acc.2)

/-- The loop of `MainWindow.update_highlights`, with `today` given as a
Julian day number.  Returns (`week_days`, `today_meals`). -/
def update_highlights (records : List DietRecord) (today : Int) :
    Finset Int × Nat :=
  records.foldl (highlight_step today) (∅, 0)

/-! ## `MainWindow.refresh_recent_records` -/

/-- `indexed = list(enumerate(self.records)); latest = list(reversed(indexed[-4:]))`:
the rows of the recent-records table, each an original index paired with its
record. -/
def refresh_recent_records (records : List DietRecord) :
    List (Nat × DietRecord) :=
  let indexed := records.enum
  (indexed.drop (indexed.length - 4)).reverse

/-! ## `MainWindow.update_body_card` -/

/-- BMI status labels shown on the body card. -/
inductive BMIStatus where
  | underweight : BMIStatus
  | normal : BMIStatus
  | overweight : BMIStatus
  | obese : BMIStatus
deriving DecidableEq, Repr

/-- `bmi = weight / ((height / 100) ** 2)`, exactly over `ℚ`. -/
def bmi (height weight : Int) : ℚ :=
  (weight : ℚ) / (((height : ℚ) / 100) ^ 2)

/-- The classification chain of `update_body_card`
(`37 / 2 = 18.5` as a rational). -/
def bmi_status (b : ℚ) : BMIStatus :=
  if b < 37 / 2 then .underweight
  else if b < 24 then .normal
  else if b < 28 then .overweight
  else .obese

/-- The body card computed from the credential profile. -/
def update_body_card (c : Credentials) : ℚ × BMIStatus :=
  (bmi c.height c.weight, bmi_status (bmi c.height c.weight))

/-! ## `MainWindow.save_settings` and `ConfigManager.save_credentials` -/

/-- `ConfigManager.save_credentials` writes `DEFAULT_CREDENTIALS` overridden
by the `username`/`password`/`height`/`weight` keys of its argument; since
`Credentials` carries exactly those four fields this persists the argument
as-is. -/
def save_credentials (c : Credentials) : Credentials := c

/-- The session state that `save_settings` touches: the in-session display
name, the calorie target, the in-memory credentials, and the contents of
`config.json` (`none` models a still-unwritten file). -/
structure SessionState where
  username : String
  target_calories : Int
  credentials : Credentials
  config_file : Option Credentials
deriving DecidableEq, Repr

/-- `MainWindow.save_settings`: the nickname field updates only
`self.username` (falling back to the old name when blank), the spin boxes
update the target and `credentials["height"]`/`credentials["weight"]`, and
the credentials are persisted. -/
def save_settings (s : SessionState) (nick : String) (target h w : Int) :
    SessionState :=
  let username := if pyStrip nick = "" then s.username else pyStrip nick
  let c := { s.credentials with height := h, weight := w }
  { username := username
    target_calories := target
    credentials := c
    config_file := some (save_credentials c) }

/-! ## A spec-side parser for non-negative integers

The spec phrases the calorie validation as "the calorie text parses as a
non-negative integer"; the code tests `calorie_text.isdigit()` and then runs
`int(calorie_text)`.  The left-to-right parser below accepts exactly the
non-empty all-digit strings, giving the value `int` would give. -/

/-- Consume decimal digits left to right, accumulating the value; fail on
the first non-digit. -/
def parseDigitsAux (acc : Nat) : List Char → Option Nat
  | [] => some acc
  | c :: cs => if c.isDigit then parseDigitsAux (10 * acc + digitVal c) cs else none

/-- Parse a string as a non-negative decimal integer. -/
def parseNonnegInt (s : String) : Option Nat :=
  match s.data with
  | [] => none
  | cs => parseDigitsAux 0 cs

/-! ## Theorems -/

/-- `parseDigitsAux` succeeds from any accumulator iff every character is a
digit. -/
theorem parseDigitsAux_isSome (cs : List Char) :
    ∀ acc : Nat, (parseDigitsAux acc cs).isSome = cs.all Char.isDigit := by
  induction cs with
  | nil => intro acc; rfl
  | cons c cs ih =>
    intro acc
    by_cases h : c.isDigit
    · simp [parseDigitsAux, h, ih]
    · simp [parseDigitsAux, h]

/-- The success of `parseNonnegInt` coincides with Python's
`str.isdigit()` test. -/
theorem parseNonnegInt_isSome_eq_pyIsDigit (s : String) :
    (parseNonnegInt s).isSome = pyIsDigit s := by
  unfold parseNonnegInt pyIsDigit
  match h : s.data with
  | [] => rfl
  | c :: cs => simp [parseDigitsAux_isSome, h]

/-- C3: `DataManager.load_records` returns the empty record list when the
backing file is absent or holds malformed content, surfacing no error, and
returns the stored sequence when the content is well-formed. -/
theorem c3_load_records_resilient :
    load_records .absent = [] ∧
    (∀ raw : String, load_records (.malformed raw) = []) ∧
    (∀ rs : List DietRecord, load_records (.wellFormed rs) = rs) :=
  ⟨rfl, fun _ => rfl, fun _ => rfl⟩

/-- C1: `handle_password_change` succeeds and sets the stored password to
the new one exactly when the old password matches, the new one has length at
least 6, differs from the stored one, and matches the confirmation; each
violated condition, checked in that order, yields its own distinct alert and
leaves the profile (password included) unchanged. -/
theorem c1_password_change_correct (c : Credentials) (old nw cf : String) :
    ((handle_password_change c old nw cf).2 = .success ∧
        (handle_password_change c old nw cf).1.password = nw ↔
      old = c.password ∧ 6 ≤ nw.length ∧ nw ≠ c.password ∧ nw = cf) ∧
    ((handle_password_change c old nw cf).2 = .success →
      (handle_password_change c old nw cf).1 = { c with password := nw }) ∧
    ((handle_password_change c old nw cf).2 ≠ .success →
      (handle_password_change c old nw cf).1 = c) ∧
    (old ≠ c.password →
      handle_password_change c old nw cf = (c, .oldWrong)) ∧
    (old = c.password → nw.length < 6 →
      handle_password_change c old nw cf = (c, .tooShort)) ∧
    (old = c.password → 6 ≤ nw.length → nw = c.password →
      handle_password_change c old nw cf = (c, .sameAsOld)) ∧
    (old = c.password → 6 ≤ nw.length → nw ≠ c.password → nw ≠ cf →
      handle_password_change c old nw cf = (c, .mismatch)) := by
  have e1 : old ≠ c.password → handle_password_change c old nw cf = (c, .oldWrong) := by
    intro h; simp [handle_password_change, h]
  have e2 : old = c.password → nw.length < 6 →
      handle_password_change c old nw cf = (c, .tooShort) := by
    intro h h'; simp [handle_password_change, h, h']
  have e3 : old = c.password → ¬ nw.length < 6 → nw = c.password →
      handle_password_change c old nw cf = (c, .sameAsOld) := by
    intro h h' h''
    simp only [handle_password_change]
    rw [if_neg (not_not_intro h), if_neg h', if_pos h'']
  have e4 : old = c.password → ¬ nw.length < 6 → nw ≠ c.password → nw ≠ cf →
      handle_password_change c old nw cf = (c, .mismatch) := by
    intro h h' h'' h'''
    simp only [handle_password_change]
    rw [if_neg (not_not_intro h), if_neg h', if_neg h'', if_pos h''']
  have e5 : old = c.password → ¬ nw.length < 6 → nw ≠ c.password → nw = cf →
      handle_password_change c old nw cf = ({ c with password := nw }, .success) := by
    intro h h' h'' h'''
    simp only [handle_password_change]
    rw [if_neg (not_not_intro h), if_neg h', if_neg h'', if_neg (not_not_intro h''')]
  have main : ∀ P : Credentials × PasswordChangeMsg → Prop,
      (old ≠ c.password → P (c, .oldWrong)) →
      (old = c.password → nw.length < 6 → P (c, .tooShort)) →
      (old = c.password → ¬ nw.length < 6 → nw = c.password → P (c, .sameAsOld)) →
      (old = c.password → ¬ nw.length < 6 → nw ≠ c.password → nw ≠ cf →
        P (c, .mismatch)) →
      (old = c.password → ¬ nw.length < 6 → nw ≠ c.password → nw = cf →
        P ({ c with password := nw }, .success)) →
      P (handle_password_change c old nw cf) := by
    intro P p1 p2 p3 p4 p5
    by_cases hold : old = c.password
    · by_cases hlen : nw.length < 6
      · rw [e2 hold hlen]; exact p2 hold hlen
      · by_cases hne : nw = c.password
        · rw [e3 hold hlen hne]; exact p3 hold hlen hne
        · by_cases hcf : nw = cf
          · rw [e5 hold hlen hne hcf]; exact p5 hold hlen hne hcf
          · rw [e4 hold hlen hne hcf]; exact p4 hold hlen hne hcf
    · rw [e1 hold]; exact p1 hold
  refine ⟨?_, ?_, ?_, ?_, ?_, ?_, ?_⟩
  · constructor
    · refine main (fun r => r.2 = .success ∧ r.1.password = nw →
        old = c.password ∧ 6 ≤ nw.length ∧ nw ≠ c.password ∧ nw = cf)
        ?_ ?_ ?_ ?_ ?_ <;> intros <;> simp_all
    · rintro ⟨hold, hlen, hne, hcf⟩
      rw [e5 hold (by omega) hne hcf]
      exact ⟨rfl, rfl⟩
  · refine main (fun r => r.2 = .success → r.1 = { c with password := nw })
      ?_ ?_ ?_ ?_ ?_ <;> intros <;> simp_all
  · refine main (fun r => r.2 ≠ .success → r.1 = c) ?_ ?_ ?_ ?_ ?_ <;>
      intros <;> simp_all
  · exact e1
  · exact e2
  · intro hold hlen hne; exact e3 hold (by omega) hne
  · intro hold hlen hne hcf; exact e4 hold (by omega) hne hcf

/-- C1 witness: The spec's example rejections and acceptance, obtained by
instantiating `c1_password_change_correct`. -/
theorem c1_password_change_witness :
    (handle_password_change ⟨"超大王", "123456", 170, 65⟩ "123456" "12345" "12345" =
      (⟨"超大王", "123456", 170, 65⟩, .tooShort)) ∧
    (handle_password_change ⟨"超大王", "123456", 170, 65⟩ "123456" "123456" "123456" =
      (⟨"超大王", "123456", 170, 65⟩, .sameAsOld)) ∧
    (handle_password_change ⟨"超大王", "123456", 170, 65⟩ "123456" "abcdef" "abcdef").1.password =
      "abcdef" := by
  refine ⟨?_, ?_, ?_⟩
  · exact (c1_password_change_correct ⟨"超大王", "123456", 170, 65⟩ "123456" "12345"
      "12345").2.2.2.2.1 rfl (by decide)
  · exact (c1_password_change_correct ⟨"超大王", "123456", 170, 65⟩ "123456" "123456"
      "123456").2.2.2.2.2.1 rfl (by decide) rfl
  · exact ((c1_password_change_correct ⟨"超大王", "123456", 170, 65⟩ "123456" "abcdef"
      "abcdef").1.mpr ⟨rfl, by decide, by decide, rfl⟩).2

/-- C5 counterexample: The code strips the entered username before
comparing, so the pair (`" 超大王"`, correct password) authenticates even
though `" 超大王"` is not exactly equal to the stored username — refuting
"authentication succeeds exactly under exact string equality of the entered
username". -/
theorem c5_exact_username_equality_fails :
    validate_login ⟨"超大王", "123456", 170, 65⟩ " 超大王" "123456" =
      .success "超大王" ∧
    " 超大王" ≠ "超大王" := by
  constructor
  · rfl
  · decide

/-- C5 (amended): Authentication succeeds exactly when the entered
username *stripped of surrounding whitespace* equals the stored username and
the entered password equals the stored password verbatim; any other pair is
rejected with the corresponding alert. -/
theorem c5_validate_login_characterisation (c : Credentials) (u p : String) :
    ((∃ name, validate_login c u p = .success name) ↔
      pyStrip u = c.username ∧ p = c.password) ∧
    (pyStrip u ≠ c.username → validate_login c u p = .badUsername) ∧
    (pyStrip u = c.username → p ≠ c.password →
      validate_login c u p = .badPassword) := by
  unfold validate_login
  by_cases h1 : pyStrip u = c.username <;> by_cases h2 : p = c.password <;>
    simp [h1, h2]

/-- C5 witness: `c5_validate_login_characterisation` at the default
profile and a wrong password. -/
theorem c5_validate_login_witness :
    validate_login ⟨"超大王", "123456", 170, 65⟩ "超大王" "wrong" = .badPassword :=
  (c5_validate_login_characterisation ⟨"超大王", "123456", 170, 65⟩ "超大王"
    "wrong").2.2 (by decide) (by decide)

/-- A single 2000 kcal record dated on the queried day. -/
def exactTargetRecord : DietRecord :=
  { date := "2024-01-01", meal := "午餐", food := "面条", calories := 2000, note := "" }

/-- C4 counterexample: With today's total exactly equal to the target the
difference `target - today_total = 0` is non-negative, yet
`update_calorie_summary` takes the `else` branch and reports「已超出 0 kcal」—
refuting "non-negative difference is reported as the remaining amount". -/
theorem c4_nonnegative_not_remaining :
    0 ≤ (2000 : Int) - today_total [exactTargetRecord] "2024-01-01" ∧
    calorie_delta 2000 (today_total [exactTargetRecord] "2024-01-01") ≠
      .remainingKcal (2000 - today_total [exactTargetRecord] "2024-01-01") := by
  constructor
  · decide
  · decide

/-- C4 (amended): The view computes `target - today_total`; a *strictly
positive* difference is reported as the remaining amount, and otherwise
(difference ≤ 0, including exactly meeting the target) the absolute value of
the difference is reported as the overage. -/
theorem c4_calorie_delta (target : Int) (records : List DietRecord)
    (today : String) :
    (0 < target - today_total records today →
      calorie_delta target (today_total records today) =
        .remainingKcal (target - today_total records today)) ∧
    (target - today_total records today ≤ 0 →
      calorie_delta target (today_total records today) =
        .exceededKcal |target - today_total records today|) := by
  unfold calorie_delta
  constructor
  · intro h
    simp [h]
  · intro h
    rw [if_neg (by omega)]

/-- C4 witness: `c4_calorie_delta` at a 500 kcal breakfast against a
2000 kcal target, and at the exact-target overage case. -/
theorem c4_calorie_delta_witness :
    calorie_delta 2000
        (today_total [⟨"2024-01-01", "早餐", "粥", 500, ""⟩] "2024-01-01") =
      .remainingKcal 1500 ∧
    calorie_delta 2000 (today_total [exactTargetRecord] "2024-01-01") =
      .exceededKcal 0 := by
  constructor
  · exact (c4_calorie_delta 2000 [⟨"2024-01-01", "早餐", "粥", 500, ""⟩]
      "2024-01-01").1 (by decide)
  · exact (c4_calorie_delta 2000 [exactTargetRecord] "2024-01-01").2 (by decide)

/-- C10: `save_settings` persists the profile with only its height and
weight replaced by the spin-box values: the persisted username and password
equal the in-memory ones (which the settings form never touches), the
persisted contents do not depend on the nickname field, and the nickname only
updates the in-session display name. -/
theorem c10_save_settings_frame (s : SessionState) (nick : String)
    (target h w : Int) :
    ((save_settings s nick target h w).config_file =
      some { s.credentials with height := h, weight := w }) ∧
    (s.config_file = some s.credentials →
      (save_settings s nick target h w).config_file =
        s.config_file.map fun old => { old with height := h, weight := w }) ∧
    (∀ nick', (save_settings s nick target h w).config_file =
      (save_settings s nick' target h w).config_file) ∧
    ((save_settings s nick target h w).username =
      if pyStrip nick = "" then s.username else pyStrip nick) := by
  refine ⟨rfl, ?_, fun _ => rfl, rfl⟩
  intro hfile
  rw [hfile]
  rfl

/-- C10 witness: `c10_save_settings_frame` on a coherent session: the
nickname "小王" is not persisted, and username/password survive. -/
theorem c10_save_settings_witness :
    (save_settings
        ⟨"超大王", 2000, ⟨"超大王", "123456", 170, 65⟩,
          some ⟨"超大王", "123456", 170, 65⟩⟩
        "小王" 1800 180 70).config_file =
      (some ⟨"超大王", "123456", 170, 65⟩ : Option Credentials).map
        fun old => { old with height := 180, weight := 70 } :=
  (c10_save_settings_frame
    ⟨"超大王", 2000, ⟨"超大王", "123456", 170, 65⟩,
      some ⟨"超大王", "123456", 170, 65⟩⟩
    "小王" 1800 180 70).2.1 rfl

/-- C2: `RecordDialog.handle_accept` accepts exactly the forms whose food
text is non-empty after trimming and whose calorie text parses as a
non-negative integer; on rejection a descriptive error (missing food, then
bad calories) is reported and `add_record` leaves both the record store and
the persisted file untouched, while on acceptance the record is appended and
saved. -/
theorem c2_record_validation (f : RecordForm) (s : AppState) :
    ((∃ r, handle_accept f = .ok r) ↔
      pyStrip f.foodText ≠ "" ∧ (parseNonnegInt (pyStrip f.calorieText)).isSome) ∧
    (pyStrip f.foodText = "" →
      handle_accept f = .error .missingFood ∧ add_record s f = s) ∧
    (pyStrip f.foodText ≠ "" → ¬ pyIsDigit (pyStrip f.calorieText) →
      handle_accept f = .error .badCalories ∧ add_record s f = s) ∧
    (∀ r, handle_accept f = .ok r →
      add_record s f = ⟨s.records ++ [r], save_records (s.records ++ [r])⟩) := by
  have hiff := parseNonnegInt_isSome_eq_pyIsDigit (pyStrip f.calorieText)
  by_cases h1 : pyStrip f.foodText = "" <;>
    by_cases h2 : pyIsDigit (pyStrip f.calorieText) = true <;>
      simp [handle_accept, add_record, h1, h2, hiff]

/-- C2 witness: A form whose food field is all whitespace is rejected
with the missing-food error and mutates nothing, by
`c2_record_validation`. -/
theorem c2_record_validation_witness :
    handle_accept (⟨"2024-01-01", "早餐", "  ", "300", "x"⟩ : RecordForm) =
      .error .missingFood ∧
    add_record ⟨[], .absent⟩ (⟨"2024-01-01", "早餐", "  ", "300", "x"⟩ : RecordForm) =
      ⟨[], .absent⟩ :=
  (c2_record_validation ⟨"2024-01-01", "早餐", "  ", "300", "x"⟩
    ⟨[], .absent⟩).2.1 (by decide)

/-- The interval classification behind `bmi_status`, as one statement. -/
theorem bmi_status_iff (b : ℚ) :
    (bmi_status b = .underweight ↔ b < 37 / 2) ∧
    (bmi_status b = .normal ↔ 37 / 2 ≤ b ∧ b < 24) ∧
    (bmi_status b = .overweight ↔ 24 ≤ b ∧ b < 28) ∧
    (bmi_status b = .obese ↔ 28 ≤ b) := by
  unfold bmi_status
  split_ifs with h1 h2 h3 <;> refine ⟨?_, ?_, ?_, ?_⟩ <;> simp_all <;>
    intros <;> linarith

/-- C6: For profiles in the spin-box ranges, BMI is
`weight / (height/100)²` (computed exactly) and is classified as underweight
below 18.5, normal in [18.5, 24), overweight in [24, 28) and obese from 28;
in particular 65 kg at 170 cm is normal, 90 kg at 170 cm is obese and 50 kg
at 170 cm is underweight. -/
theorem c6_bmi_classification (h w : Int) (hh1 : 100 ≤ h) (hh2 : h ≤ 250)
    (hw1 : 30 ≤ w) (hw2 : w ≤ 200) :
    (bmi h w = (w : ℚ) / (((h : ℚ) / 100) ^ 2)) ∧
    (bmi_status (bmi h w) = .underweight ↔ bmi h w < 37 / 2) ∧
    (bmi_status (bmi h w) = .normal ↔ 37 / 2 ≤ bmi h w ∧ bmi h w < 24) ∧
    (bmi_status (bmi h w) = .overweight ↔ 24 ≤ bmi h w ∧ bmi h w < 28) ∧
    (bmi_status (bmi h w) = .obese ↔ 28 ≤ bmi h w) ∧
    (update_body_card ⟨"超大王", "123456", 170, 65⟩).2 = .normal ∧
    (update_body_card ⟨"超大王", "123456", 170, 90⟩).2 = .obese ∧
    (update_body_card ⟨"超大王", "123456", 170, 50⟩).2 = .underweight := by
  obtain ⟨i1, i2, i3, i4⟩ := bmi_status_iff (bmi h w)
  refine ⟨rfl, i1, i2, i3, i4, ?_, ?_, ?_⟩ <;>
    · unfold update_body_card bmi_status bmi
      norm_num

/-- C6 witness: `c6_bmi_classification` at height 170 cm, weight 65 kg. -/
theorem c6_bmi_classification_witness :
    ((100 : Int) ≤ 170 ∧ (170 : Int) ≤ 250 ∧ (30 : Int) ≤ 65 ∧ (65 : Int) ≤ 200) ∧
    (bmi_status (bmi 170 65) = .normal ↔ 37 / 2 ≤ bmi 170 65 ∧ bmi 170 65 < 24) :=
  ⟨⟨by decide, by decide, by decide, by decide⟩,
    (c6_bmi_classification 170 65 (by decide) (by decide) (by decide)
      (by decide)).2.2.1⟩

/-- C8: The recent-records view holds exactly the last `min 4 n` records,
most recently appended first: its record column is `records.reverse.take 4`. -/
theorem c8_recent_records_last_four (records : List DietRecord) :
    (refresh_recent_records records).map Prod.snd = records.reverse.take 4 ∧
    (refresh_recent_records records).length = min 4 records.length := by
  constructor
  · simp only [refresh_recent_records]
    rw [List.map_reverse, List.map_drop, List.enum_map_snd, List.enum_length]
    exact (List.take_reverse).symm
  · simp only [refresh_recent_records, List.length_reverse, List.length_drop,
      List.enum_length]
    omega

/-- One store operation keeps the persisted file equal to the serialization
of the in-memory list, because every mutation immediately calls
`DataManager.save_records` and every rejected path mutates nothing. -/
theorem apply_op_coherent (s : AppState) (op : StoreOp)
    (hs : s.file = save_records s.records) :
    (apply_op s op).file = save_records (apply_op s op).records := by
  cases op with
  | append f =>
    show (add_record s f).file = save_records (add_record s f).records
    unfold add_record
    cases hacc : handle_accept f <;> simp [hacc, hs]
  | replaceAt i f =>
    show (edit_record_by_index s i f).file =
      save_records (edit_record_by_index s i f).records
    unfold edit_record_by_index
    split_ifs with hi
    · cases hacc : handle_accept f <;> simp [hacc, hs]
    · exact hs
  | removeAt i confirmed =>
    show (delete_record_by_index s i confirmed).file =
      save_records (delete_record_by_index s i confirmed).records
    unfold delete_record_by_index
    split_ifs <;> simp [hs]

/-- C9: Loading right after saving returns the saved list, and along any
sequence of append / replace / remove operations starting from a state whose
file matches its in-memory list, the persisted file stays equal to a fresh
serialization of the in-memory list. -/
theorem c9_save_load_roundtrip :
    (∀ rs : List DietRecord, load_records (save_records rs) = rs) ∧
    (∀ (ops : List StoreOp) (s : AppState),
      s.file = save_records s.records →
      (apply_ops s ops).file = save_records (apply_ops s ops).records) := by
  refine ⟨fun _ => rfl, ?_⟩
  intro ops
  induction ops with
  | nil => exact fun s hs => hs
  | cons op ops ih => exact fun s hs => ih (apply_op s op) (apply_op_coherent s op hs)

/-- C9 witness: `c9_save_load_roundtrip` after appending one record to a
fresh saved-empty state. -/
theorem c9_save_load_roundtrip_witness :
    (apply_ops ⟨[], save_records []⟩
        [.append ⟨"2024-01-01", "早餐", "鸡蛋", "80", ""⟩]).file =
      save_records (apply_ops ⟨[], save_records []⟩
        [.append ⟨"2024-01-01", "早餐", "鸡蛋", "80", ""⟩]).records :=
  c9_save_load_roundtrip.2 [.append ⟨"2024-01-01", "早餐", "鸡蛋", "80", ""⟩]
    ⟨[], save_records []⟩ rfl

/-- Membership in the `week_days` accumulator of the highlights loop:
a day is collected iff it was already there or lies in the seven-day window
and some record parses to it. -/
theorem highlight_fold_mem (today : Int) (records : List DietRecord) :
    ∀ (acc : Finset Int × Nat) (x : Int),
      x ∈ (records.foldl (highlight_step today) acc).1 ↔
        x ∈ acc.1 ∨ ((today - 6 ≤ x ∧ x ≤ today) ∧
          ∃ r ∈ records, parseDate r.date = some x) := by
  induction records with
  | nil => simp
  | cons r rs ih =>
    intro acc x
    simp only [List.foldl_cons]
    rw [ih]
    unfold highlight_step
    cases hp : parseDate r.date with
    | none =>
      simp only [List.mem_cons]
      constructor
      · rintro (hx | ⟨hw, r', hr', hx⟩)
        · exact Or.inl hx
        · exact Or.inr ⟨hw, r', Or.inr hr', hx⟩
      · rintro (hx | ⟨hw, r', (rfl | hr'), hx⟩)
        · exact Or.inl hx
        · rw [hp] at hx; exact absurd hx (by simp)
        · exact Or.inr ⟨hw, r', hr', hx⟩
    | some d =>
      by_cases hin : today - 6 ≤ d ∧ d ≤ today
      · simp only [if_pos hin, Finset.mem_insert, List.mem_cons]
        constructor
        · rintro ((rfl | hx) | ⟨hw, r', hr', hx⟩)
          · exact Or.inr ⟨hin, r, Or.inl rfl, hp⟩
          · exact Or.inl hx
          · exact Or.inr ⟨hw, r', Or.inr hr', hx⟩
        · rintro (hx | ⟨hw, r', (rfl | hr'), hx⟩)
          · exact Or.inl (Or.inr hx)
          · rw [hp] at hx
            exact Or.inl (Or.inl (Option.some_injective _ hx).symm)
          · exact Or.inr ⟨hw, r', hr', hx⟩
      · simp only [if_neg hin, List.mem_cons]
        constructor
        · rintro (hx | ⟨hw, r', hr', hx⟩)
          · exact Or.inl hx
          · exact Or.inr ⟨hw, r', Or.inr hr', hx⟩
        · rintro (hx | ⟨hw, r', (rfl | hr'), hx⟩)
          · exact Or.inl hx
          · rw [hp] at hx
            cases Option.some_injective _ hx
            exact absurd hw hin
          · exact Or.inr ⟨hw, r', hr', hx⟩

/-- The `today_meals` accumulator counts the records parsing exactly to
`today`, on top of its initial value. -/
theorem highlight_fold_count (today : Int) (records : List DietRecord) :
    ∀ acc : Finset Int × Nat,
      (records.foldl (highlight_step today) acc).2 =
        acc.2 + records.countP (fun r => decide (parseDate r.date = some today)) := by
  induction records with
  | nil => simp
  | cons r rs ih =>
    intro acc
    simp only [List.foldl_cons, List.countP_cons]
    rw [ih]
    unfold highlight_step
    cases hp : parseDate r.date with
    | none => simp [hp]
    | some d =>
      by_cases hd : d = today
      · subst hd
        simp [hp]
        omega
      · simp [hp, hd]

/-- Dropping the records whose date string does not parse leaves the
highlights loop unchanged: they are skipped by the `continue`. -/
theorem highlight_fold_skips_unparsable (today : Int) (records : List DietRecord) :
    ∀ acc : Finset Int × Nat,
      (records.filter fun r => (parseDate r.date).isSome).foldl
          (highlight_step today) acc =
        records.foldl (highlight_step today) acc := by
  induction records with
  | nil => intro acc; rfl
  | cons r rs ih =>
    intro acc
    cases hp : parseDate r.date with
    | none =>
      have hstep : highlight_step today acc r = acc := by
        unfold highlight_step; rw [hp]
      simp only [List.filter_cons, hp, Option.isSome_none, List.foldl_cons, hstep]
      exact ih acc
    | some d =>
      simp only [List.filter_cons, hp, Option.isSome_some, List.foldl_cons]
      exact ih (highlight_step today acc r)

/-- C7: The weekly check-in count equals the number of distinct days in
`[today - 6, today]` to which at least one record's date string parses;
today's meal count counts the records parsing exactly to `today`; and
records with unparsable date strings contribute to neither. -/
theorem c7_weekly_checkins (records : List DietRecord) (today : Int) :
    (update_highlights records today).1.card =
      ((Finset.Icc (today - 6) today).filter
        (fun d => ∃ r ∈ records, parseDate r.date = some d)).card ∧
    (update_highlights records today).2 =
      records.countP (fun r => decide (parseDate r.date = some today)) ∧
    update_highlights (records.filter fun r => (parseDate r.date).isSome) today =
      update_highlights records today := by
  refine ⟨?_, ?_, ?_⟩
  · have hset : (update_highlights records today).1 =
        (Finset.Icc (today - 6) today).filter
          (fun d => ∃ r ∈ records, parseDate r.date = some d) := by
      ext x
      rw [update_highlights, highlight_fold_mem]
      simp [Finset.mem_Icc, and_comm]
    rw [hset]
  · rw [update_highlights, highlight_fold_count]
    simp
  · exact highlight_fold_skips_unparsable today records (∅, 0)

end HealthMonitor
